import Mathlib

/-!
Shallow embedding of the editor-server repository (Rust): the JSON-RPC
envelope (src/rpc/request.rs, src/rpc/error.rs), the three file-system
operation handlers and the dispatcher (src/rpc/handlers.rs), and the
per-connection WebSocket loop (src/ws/connection.rs).

The external file system (std::fs) is modelled as an explicit state:
an association list from path strings to nodes.  A directory node
carries the outcome that `fs::read_dir` iteration would produce for it:
a list of per-entry results, each entry holding the name, the result of
`entry.path().is_dir()`, and the result of `entry.metadata().len()`.
JSON text parsing (serde_json::from_str) is split into the external
grammar step - a frame payload is either malformed or a structured
value - and the struct-decoding step, which is embedded faithfully to
the serde derive semantics of `JsonRpcRequest`.
-/

/-- A serde_json::Value: null, bool, number, string, array or object. -/
inductive Json where
  | null
  | bool (b : Bool)
  | num (n : Int)
  | str (s : String)
  | arr (elems : List Json)
  | obj (fields : List (String × Json))

/-- JsonRpcError from src/rpc/error.rs: integer code and message. -/
structure JsonRpcError where
  code : Int
  message : String
deriving DecidableEq

/-- JsonRpcResponse from src/rpc/request.rs. -/
structure JsonRpcResponse where
  jsonrpc : String
  result : Option Json
  error : Option JsonRpcError
  id : Json

/-- JsonRpcRequest from src/rpc/request.rs: jsonrpc, method and params are
mandatory fields; id is an Option. -/
structure JsonRpcRequest where
  jsonrpc : String
  method : String
  params : Json
  id : Option Json

-- JSON-RPC error codes from src/rpc/error.rs.
def PARSE_ERROR_CODE : Int := -32700
def INVALID_REQUEST_CODE : Int := -32600
def METHOD_NOT_FOUND_CODE : Int := -32601
def INVALID_PARAMS_CODE : Int := -32602
def INTERNAL_ERROR_CODE : Int := -32603
def FILE_NOT_FOUND_CODE : Int := -32001
def IO_ERROR_CODE : Int := -32002

/-- Modelled from the spec: handlers.rs imports DIRECTORY_ERROR_CODE from
rpc::error, but the definition of this constant is not present in the
error.rs file under src/.  The spec error table assigns the directory
error the code -32003, distinct from file-not-found. -/
def DIRECTORY_ERROR_CODE : Int := -32003

/-- create_error_response from src/rpc/error.rs: a response with no
result and an error object. -/
def create_error_response (code : Int) (message : String) (id : Json) :
    JsonRpcResponse :=
  { jsonrpc := "2.0"
    result := none
    error := some { code := code, message := message }
    id := id }

/-- HandlerError from src/rpc/handlers.rs; std::io::Error is embedded as
its display message. -/
inductive HandlerError where
  | InvalidParams (msg : String)
  | FileNotFound
  | DirectoryError (msg : String)
  | IoError (msg : String)

/-- HandlerError::to_jsonrpc_error from src/rpc/handlers.rs. -/
def HandlerError.to_jsonrpc_error (e : HandlerError) (id : Json) :
    JsonRpcResponse :=
  match e with
  | .InvalidParams msg => create_error_response INVALID_PARAMS_CODE msg id
  | .FileNotFound => create_error_response FILE_NOT_FOUND_CODE "File not found" id
  | .DirectoryError msg => create_error_response DIRECTORY_ERROR_CODE msg id
  | .IoError msg => create_error_response IO_ERROR_CODE msg id

/-- Field lookup in a JSON object (first occurrence wins). -/
def getField (fields : List (String × Json)) (k : String) : Option Json :=
  match fields with
  | [] => none
  | (k', v) :: rest => if k' = k then some v else getField rest k

/-- Extract a JSON string, as serde does when deserializing a String field. -/
def asString (j : Json) : Option String :=
  match j with
  | .str s => some s
  | _ => none

/-- One raw directory entry as surfaced by the fs::read_dir iterator:
the entry name, the result of entry.path().is_dir(), and the outcome of
entry.metadata() reduced to the file length (or the io error message). -/
structure RawEntry where
  name : String
  isDir : Bool
  metadata : Except String Nat

/-- A node of the modelled file system: a regular file with string
content, or a directory whose read_dir iteration yields the given list
of per-entry results. -/
inductive Node where
  | file (content : String)
  | dir (entries : List (Except String RawEntry))

/-- The modelled file-system state: an association list from path
strings to nodes; the most recent binding for a path comes first. -/
def FsState : Type := List (String × Node)

/-- Look up the current node at a path. -/
def lookupPath (fs : FsState) (p : String) : Option Node :=
  match fs with
  | [] => none
  | (q, n) :: rest => if q = p then some n else lookupPath rest p

/-- Path::exists. -/
def pathExists (fs : FsState) (p : String) : Bool :=
  (lookupPath fs p).isSome

/-- Path::is_dir. -/
def isDirPath (fs : FsState) (p : String) : Bool :=
  match lookupPath fs p with
  | some (.dir _) => true
  | _ => false

/-- fs::read_to_string on the modelled state. -/
def readToString (fs : FsState) (p : String) : Except String String :=
  match lookupPath fs p with
  | some (.file c) => .ok c
  | some (.dir _) => .error "Is a directory (os error 21)"
  | none => .error "No such file or directory (os error 2)"

/-- fs::File::create: creates or truncates the file at the path; fails if
the path is an existing directory. -/
def fileCreate (fs : FsState) (p : String) : Except String FsState :=
  if isDirPath fs p then .error "Is a directory (os error 21)"
  else .ok ((p, Node.file "") :: fs)

/-- File::write_all of the full string content to a just-created file. -/
def writeAll (fs : FsState) (p : String) (content : String) : FsState :=
  (p, Node.file content) :: fs

/-- fs::read_dir: the per-entry results the iterator yields. -/
def readDir (fs : FsState) (p : String) : Except String (List (Except String RawEntry)) :=
  match lookupPath fs p with
  | some (.dir es) => .ok es
  | some (.file _) => .error "Not a directory (os error 20)"
  | none => .error "No such file or directory (os error 2)"

/-- serde_json::from_value of ReadFileParams: an object with a mandatory
string field named path; unknown fields are permitted. -/
def parseReadFileParams (params : Json) : Except String String :=
  match params with
  | .obj fields =>
    match getField fields "path" with
    | none => .error "missing field path"
    | some v =>
      match asString v with
      | some s => .ok s
      | none => .error "invalid type for field path"
  | _ => .error "invalid type: expected struct ReadFileParams"

/-- serde_json::from_value of WriteFileParams: mandatory string fields
path and content. -/
def parseWriteFileParams (params : Json) : Except String (String × String) :=
  match params with
  | .obj fields =>
    match getField fields "path" with
    | none => .error "missing field path"
    | some v =>
      match asString v with
      | none => .error "invalid type for field path"
      | some p =>
        match getField fields "content" with
        | none => .error "missing field content"
        | some w =>
          match asString w with
          | none => .error "invalid type for field content"
          | some c => .ok (p, c)
  | _ => .error "invalid type: expected struct WriteFileParams"

/-- serde_json::from_value of ListFilesParams: an object with a mandatory
string field named path. -/
def parseListFilesParams (params : Json) : Except String String :=
  match params with
  | .obj fields =>
    match getField fields "path" with
    | none => .error "missing field path"
    | some v =>
      match asString v with
      | some s => .ok s
      | none => .error "invalid type for field path"
  | _ => .error "invalid type: expected struct ListFilesParams"

/-- handle_read_file from src/rpc/handlers.rs: deserialize params, check
existence, read the content as a string. -/
def handle_read_file (fs : FsState) (params : Json) : Except HandlerError Json :=
  match parseReadFileParams params with
  | .error e => .error (.InvalidParams e)
  | .ok path =>
    if !(pathExists fs path) then .error .FileNotFound
    else
      match readToString fs path with
      | .error e => .error (.IoError e)
      | .ok content => .ok (.str content)

/-- handle_write_file from src/rpc/handlers.rs: deserialize params,
File::create, write_all, return Bool true.  The updated file-system
state is returned alongside the handler outcome. -/
def handle_write_file (fs : FsState) (params : Json) :
    FsState × Except HandlerError Json :=
  match parseWriteFileParams params with
  | .error e => (fs, .error (.InvalidParams e))
  | .ok (path, content) =>
    match fileCreate fs path with
    | .error e => (fs, .error (.IoError e))
    | .ok fs1 => (writeAll fs1 path content, .ok (.bool true))

/-- The JSON object pushed for a directory entry in handle_list_files. -/
def dirEntryJson (name : String) : Json :=
  .obj [("name", .str name), ("type", .str "directory")]

/-- The JSON object pushed for a file entry in handle_list_files. -/
def fileEntryJson (name : String) (size : Nat) : Json :=
  .obj [("name", .str name), ("type", .str "file"), ("size", .num size)]

/-- The for-loop of handle_list_files: walk the read_dir results in
order, partitioning into the directories and files vectors; any
per-entry error or metadata error aborts the whole walk. -/
def collectEntries (items : List (Except String RawEntry)) :
    Except String (List Json × List Json) :=
  match items with
  | [] => .ok ([], [])
  | .error e :: _ => .error e
  | .ok en :: rest =>
    if en.isDir then
      match collectEntries rest with
      | .error e => .error e
      | .ok (ds, fls) => .ok (dirEntryJson en.name :: ds, fls)
    else
      match en.metadata with
      | .error e => .error e
      | .ok size =>
        match collectEntries rest with
        | .error e => .error e
        | .ok (ds, fls) => .ok (ds, fileEntryJson en.name size :: fls)

/-- The sort key a["name"].as_str().unwrap() used by the sort_by calls;
all pushed values are objects with a string name field. -/
def nameKey (j : Json) : String :=
  match j with
  | .obj fields => ((getField fields "name").bind asString).getD ""
  | _ => ""

/-- Vec::sort_by with the comparator on the name field: a stable sort,
modelled by insertion sort under the name order. -/
def sortByName (l : List Json) : List Json :=
  List.insertionSort (fun a b => nameKey a ≤ nameKey b) l

/-- handle_list_files from src/rpc/handlers.rs: deserialize params, check
the path exists and is a directory, walk read_dir, sort directories and
files by name, and return directories followed by files. -/
def handle_list_files (fs : FsState) (params : Json) : Except HandlerError Json :=
  match parseListFilesParams params with
  | .error e => .error (.InvalidParams e)
  | .ok path =>
    if !(pathExists fs path) then
      .error (.DirectoryError "Directory does not exist")
    else if !(isDirPath fs path) then
      .error (.DirectoryError "Path is not a directory")
    else
      match readDir fs path with
      | .error e => .error (.IoError e)
      | .ok entries =>
        match collectEntries entries with
        | .error e => .error (.IoError e)
        | .ok (ds, fls) => .ok (.arr (sortByName ds ++ sortByName fls))

/-- Wrap a handler outcome as process_request does: a success value
becomes the result field, a failure goes through to_jsonrpc_error. -/
def wrapResult (r : Except HandlerError Json) (id : Json) : JsonRpcResponse :=
  match r with
  | .ok value => { jsonrpc := "2.0", result := some value, error := none, id := id }
  | .error e => e.to_jsonrpc_error id

/-- process_request from src/rpc/handlers.rs: dispatch on the exact
method string; unknown methods get METHOD_NOT_FOUND_CODE; the response
id is the request id or null when absent.  The possibly updated
file-system state is threaded through. -/
def process_request (fs : FsState) (request : JsonRpcRequest) :
    FsState × JsonRpcResponse :=
  let id := request.id.getD Json.null
  match request.method with
  | "readFile" => (fs, wrapResult (handle_read_file fs request.params) id)
  | "writeFile" =>
    let (fs1, r) := handle_write_file fs request.params
    (fs1, wrapResult r id)
  | "listFiles" => (fs, wrapResult (handle_list_files fs request.params) id)
  | _ => (fs, create_error_response METHOD_NOT_FOUND_CODE "Method not Found" id)

/-- The serde derive decoding of JsonRpcRequest from a structured JSON
value: the input must be an object; jsonrpc and method must be strings
and params must be present (any value); id is an Option, so an absent
or null id decodes to none. -/
def decodeRequest (j : Json) : Except String JsonRpcRequest :=
  match j with
  | .obj fields =>
    match getField fields "jsonrpc" with
    | none => .error "missing field jsonrpc"
    | some jv =>
      match asString jv with
      | none => .error "invalid type for field jsonrpc"
      | some ver =>
        match getField fields "method" with
        | none => .error "missing field method"
        | some mv =>
          match asString mv with
          | none => .error "invalid type for field method"
          | some m =>
            match getField fields "params" with
            | none => .error "missing field params"
            | some pv =>
              let id :=
                match getField fields "id" with
                | none => none
                | some .null => none
                | some v => some v
              .ok { jsonrpc := ver, method := m, params := pv, id := id }
  | _ => .error "invalid type: expected struct JsonRpcRequest"

/-- The payload of a text frame: either text that is not well-formed
JSON (the external grammar step of serde_json::from_str rejects it), or
a well-formed structured value. -/
inductive Payload where
  | malformed (raw : String)
  | json (value : Json)

/-- serde_json::from_str of a text frame into a JsonRpcRequest:
malformed text fails at the grammar; well-formed text goes through the
struct decoding. -/
def decodeText (pl : Payload) : Except String JsonRpcRequest :=
  match pl with
  | .malformed _ => .error "expected value"
  | .json j => decodeRequest j

/-- A WebSocket message as matched in handle_socket: only the Text
variant is processed. -/
inductive Message where
  | text (payload : Payload)
  | binary
  | ping
  | pong
  | close

/-- One outcome of receiver.next() in the connection loop: a message
received successfully (tagged with whether the later send of a response
would succeed), or a receive error. -/
inductive RecvItem where
  | ok (m : Message) (sendOk : Bool)
  | err

/-- The connection state of the loop in handle_socket. -/
inductive ConnStatus where
  | Open
  | Closed
deriving DecidableEq

/-- The body of the text-frame branch of handle_socket: decode the text
into a request and process it, or build the parse-error response with a
null id. -/
def processText (fs : FsState) (pl : Payload) : FsState × JsonRpcResponse :=
  match decodeText pl with
  | .ok request => process_request fs request
  | .error _ => (fs, create_error_response PARSE_ERROR_CODE "Parse error" Json.null)

/-- One iteration of the while-let loop of handle_socket: a receive
error returns (closes); a text frame is processed and its response
sent - a send failure returns; any non-text frame is ignored. -/
def stepConn (fs : FsState) (item : RecvItem) :
    ConnStatus × FsState × Option JsonRpcResponse :=
  match item with
  | .err => (.Closed, fs, none)
  | .ok m sendOk =>
    match m with
    | .text pl =>
      let (fs1, response) := processText fs pl
      if sendOk then (.Open, fs1, some response) else (.Closed, fs1, none)
    | _ => (.Open, fs, none)

/-- The whole while-let loop of handle_socket over a finite inbound
stream: the list of responses successfully sent back, in order.  An
exhausted stream or a Closed step ends the loop. -/
def runSocket (fs : FsState) (items : List RecvItem) : List JsonRpcResponse :=
  match items with
  | [] => []
  | item :: rest =>
    match stepConn fs item with
    | (.Open, fs1, some r) => r :: runSocket fs1 rest
    | (.Open, fs1, none) => runSocket fs1 rest
    | (.Closed, _, _) => []

/-- The response invariant of the envelope: exactly one of the result
and error fields is present. -/
def exactlyOneOfResultError (r : JsonRpcResponse) : Prop :=
  (r.result ≠ none ∧ r.error = none) ∨ (r.result = none ∧ r.error ≠ none)

/-- A readFile request with the given path and optional id. -/
def readFileRequest (p : String) (id : Option Json) : JsonRpcRequest :=
  { jsonrpc := "2.0", method := "readFile", params := .obj [("path", .str p)], id := id }

/-- A writeFile request with the given path, content and optional id. -/
def writeFileRequest (p c : String) (id : Option Json) : JsonRpcRequest :=
  { jsonrpc := "2.0", method := "writeFile"
    params := .obj [("path", .str p), ("content", .str c)], id := id }

/-- A listFiles request with the given path and optional id. -/
def listFilesRequest (p : String) (id : Option Json) : JsonRpcRequest :=
  { jsonrpc := "2.0", method := "listFiles", params := .obj [("path", .str p)], id := id }

/-- The type field of a listing entry object. -/
def typeKey (j : Json) : Option String :=
  match j with
  | .obj fields => (getField fields "type").bind asString
  | _ => none

/-- A listing fragment is sorted ascending by its name keys. -/
def sortedByName (l : List Json) : Prop :=
  List.Sorted (fun a b => nameKey a ≤ nameKey b) l

theorem parseReadFileParams_path (p : String) :
    parseReadFileParams (.obj [("path", .str p)]) = .ok p := rfl

theorem parseWriteFileParams_path_content (p c : String) :
    parseWriteFileParams (.obj [("path", .str p), ("content", .str c)]) = .ok (p, c) := rfl

theorem parseListFilesParams_path (p : String) :
    parseListFilesParams (.obj [("path", .str p)]) = .ok p := rfl

/-- C4: a request whose method is not exactly one of readFile, writeFile
or listFiles (case-sensitively) gets an error response with code -32601
regardless of params, whose id echoes the request id (null if absent). -/
theorem unknown_method_yields_method_not_found (fs : FsState)
    (request : JsonRpcRequest)
    (h1 : request.method ≠ "readFile") (h2 : request.method ≠ "writeFile")
    (h3 : request.method ≠ "listFiles") :
    ((process_request fs request).2).result = none ∧
    ((process_request fs request).2).error =
      some { code := -32601, message := "Method not Found" } ∧
    ((process_request fs request).2).id = request.id.getD Json.null := by
  simp only [process_request]
  simp [create_error_response, METHOD_NOT_FOUND_CODE]

/-- A concrete request with a method outside the dispatch table. -/
def unknownMethodRequest : JsonRpcRequest :=
  { jsonrpc := "2.0", method := "deleteFile", params := Json.null
    id := some (Json.num 7) }

/-- Witness for C4 at a concrete unknown method. -/
theorem unknown_method_yields_method_not_found_witness :
    ((process_request [] unknownMethodRequest).2).result = none ∧
    ((process_request [] unknownMethodRequest).2).error =
      some { code := -32601, message := "Method not Found" } ∧
    ((process_request [] unknownMethodRequest).2).id =
      unknownMethodRequest.id.getD Json.null :=
  unknown_method_yields_method_not_found [] unknownMethodRequest
    (by decide) (by decide) (by decide)

/-- C3: listFiles on an existing path that is not a directory answers
with code -32003 and message "Path is not a directory"; on a missing
path it answers with code -32003 and message "Directory does not
exist"; -32003 is distinct from the file-not-found code -32001. -/
theorem listFiles_directory_error_codes (fs : FsState) (p : String) (id : Option Json) :
    (pathExists fs p = true → isDirPath fs p = false →
      ((process_request fs (listFilesRequest p id)).2).error =
        some { code := -32003, message := "Path is not a directory" } ∧
      (-32003 : Int) ≠ -32001) ∧
    (pathExists fs p = false →
      ((process_request fs (listFilesRequest p id)).2).error =
        some { code := -32003, message := "Directory does not exist" }) := by
  constructor
  · intro h1 h2
    refine ⟨?_, by decide⟩
    simp [process_request, listFilesRequest, handle_list_files,
      parseListFilesParams_path, h1, h2, wrapResult, HandlerError.to_jsonrpc_error,
      create_error_response, DIRECTORY_ERROR_CODE]
  · intro h1
    simp [process_request, listFilesRequest, handle_list_files,
      parseListFilesParams_path, h1, wrapResult, HandlerError.to_jsonrpc_error,
      create_error_response, DIRECTORY_ERROR_CODE]

/-- A state holding a single regular file named f. -/
def oneFileFs : FsState := [("f", Node.file "data")]

/-- Witness for C3: a regular file target and a missing target. -/
theorem listFiles_directory_error_codes_witness :
    (((process_request oneFileFs (listFilesRequest "f" none)).2).error =
        some { code := -32003, message := "Path is not a directory" } ∧
      (-32003 : Int) ≠ -32001) ∧
    ((process_request oneFileFs (listFilesRequest "nope" none)).2).error =
      some { code := -32003, message := "Directory does not exist" } :=
  ⟨(listFiles_directory_error_codes oneFileFs "f" none).1 (by decide) (by decide),
   (listFiles_directory_error_codes oneFileFs "nope" none).2 (by decide)⟩

/-- C5: a readFile request whose params object lacks the path field, or
whose path field is not a string, answers with code -32602; a readFile
request for a path that does not exist answers with code -32001. -/
theorem readFile_error_codes (fs : FsState) (fields : List (String × Json))
    (p : String) (id : Option Json) :
    ((getField fields "path" = none ∨
        (∃ j, getField fields "path" = some j ∧ asString j = none)) →
      ∃ m, ((process_request fs
          { jsonrpc := "2.0", method := "readFile", params := .obj fields, id := id }).2).error =
            some { code := -32602, message := m } ∧
        ((process_request fs
          { jsonrpc := "2.0", method := "readFile", params := .obj fields, id := id }).2).result = none) ∧
    (pathExists fs p = false →
      ((process_request fs (readFileRequest p id)).2).error =
        some { code := -32001, message := "File not found" } ∧
      ((process_request fs (readFileRequest p id)).2).result = none) := by
  constructor
  · intro h
    rcases h with h | ⟨j, hj, hs⟩
    · exact ⟨"missing field path", by
        simp [process_request, handle_read_file, parseReadFileParams, h,
          wrapResult, HandlerError.to_jsonrpc_error, create_error_response,
          INVALID_PARAMS_CODE]⟩
    · exact ⟨"invalid type for field path", by
        simp [process_request, handle_read_file, parseReadFileParams, hj, hs,
          wrapResult, HandlerError.to_jsonrpc_error, create_error_response,
          INVALID_PARAMS_CODE]⟩
  · intro h
    simp [process_request, readFileRequest, handle_read_file,
      parseReadFileParams_path, h, wrapResult, HandlerError.to_jsonrpc_error,
      create_error_response, FILE_NOT_FOUND_CODE]

/-- A readFile request whose params object has no path field. -/
def readFileNoPathRequest : JsonRpcRequest :=
  { jsonrpc := "2.0", method := "readFile", params := .obj [], id := none }

/-- Witness for C5: params without a path field, and a missing path. -/
theorem readFile_error_codes_witness :
    (∃ m, ((process_request [] readFileNoPathRequest).2).error =
          some { code := -32602, message := m } ∧
      ((process_request [] readFileNoPathRequest).2).result = none) ∧
    (((process_request [] (readFileRequest "nope" none)).2).error =
        some { code := -32001, message := "File not found" } ∧
      ((process_request [] (readFileRequest "nope" none)).2).result = none) :=
  ⟨(readFile_error_codes [] [] "nope" none).1 (Or.inl rfl),
   (readFile_error_codes [] [] "nope" none).2 rfl⟩

/-- C1: whenever a writeFile request for a path and content succeeds
(its result is true), an immediately following readFile for the same
path succeeds and its result string equals the written content. -/
theorem writeFile_readFile_roundtrip (fs : FsState) (p c : String)
    (id1 id2 : Option Json)
    (h : ((process_request fs (writeFileRequest p c id1)).2).result = some (.bool true)) :
    ((process_request (process_request fs (writeFileRequest p c id1)).1
        (readFileRequest p id2)).2).result = some (.str c) ∧
    ((process_request (process_request fs (writeFileRequest p c id1)).1
        (readFileRequest p id2)).2).error = none := by
  by_cases hd : isDirPath fs p
  · exfalso
    simp [process_request, writeFileRequest, handle_write_file,
      parseWriteFileParams_path_content, fileCreate, hd, wrapResult,
      HandlerError.to_jsonrpc_error, create_error_response] at h
  · constructor <;>
      simp [process_request, writeFileRequest, readFileRequest,
        handle_write_file, handle_read_file, parseWriteFileParams_path_content,
        parseReadFileParams_path, fileCreate, hd, writeAll, wrapResult,
        pathExists, lookupPath, readToString]

/-- Witness for C1: write then read a concrete file on an empty state. -/
theorem writeFile_readFile_roundtrip_witness :
    ((process_request (process_request [] (writeFileRequest "notes.txt" "hello" none)).1
        (readFileRequest "notes.txt" none)).2).result = some (.str "hello") ∧
    ((process_request (process_request [] (writeFileRequest "notes.txt" "hello" none)).1
        (readFileRequest "notes.txt" none)).2).error = none :=
  writeFile_readFile_roundtrip [] "notes.txt" "hello" none none rfl

theorem typeKey_dirEntryJson (name : String) :
    typeKey (dirEntryJson name) = some "directory" := rfl

theorem typeKey_fileEntryJson (name : String) (size : Nat) :
    typeKey (fileEntryJson name size) = some "file" := rfl

instance : IsTotal Json (fun a b => nameKey a ≤ nameKey b) :=
  ⟨fun a b => le_total (nameKey a) (nameKey b)⟩

instance : IsTrans Json (fun a b => nameKey a ≤ nameKey b) :=
  ⟨fun _ _ _ h1 h2 => le_trans h1 h2⟩

theorem collectEntries_types (items : List (Except String RawEntry)) :
    ∀ ds fls, collectEntries items = .ok (ds, fls) →
      (∀ e ∈ ds, typeKey e = some "directory") ∧
      (∀ e ∈ fls, typeKey e = some "file") := by
  induction items with
  | nil =>
    intro ds fls h
    simp [collectEntries] at h
    obtain ⟨h1, h2⟩ := h
    subst h1; subst h2
    exact ⟨by simp, by simp⟩
  | cons a rest ih =>
    intro ds fls h
    cases a with
    | error e => simp [collectEntries] at h
    | ok en =>
      simp only [collectEntries] at h
      split at h
      · split at h
        · exact absurd h (by simp)
        · next ds0 fls0 heq =>
          simp only [Except.ok.injEq, Prod.mk.injEq] at h
          obtain ⟨hds, hfls⟩ := h
          subst hds; subst hfls
          obtain ⟨ihd, ihf⟩ := ih ds0 fls0 heq
          refine ⟨?_, ihf⟩
          intro e he
          rcases List.mem_cons.mp he with he | he
          · subst he; exact typeKey_dirEntryJson en.name
          · exact ihd e he
      · split at h
        · exact absurd h (by simp)
        · next size hm =>
          split at h
          · exact absurd h (by simp)
          · next ds0 fls0 heq =>
            simp only [Except.ok.injEq, Prod.mk.injEq] at h
            obtain ⟨hds, hfls⟩ := h
            subst hds; subst hfls
            obtain ⟨ihd, ihf⟩ := ih ds0 fls0 heq
            refine ⟨ihd, ?_⟩
            intro e he
            rcases List.mem_cons.mp he with he | he
            · subst he; exact typeKey_fileEntryJson en.name size
            · exact ihf e he

/-- C2: whenever listFiles succeeds, the returned array splits into a
block of directory entries followed by a block of file entries, each
block sorted ascending by name under the string order. -/
theorem listFiles_result_ordered (fs : FsState) (params : Json) (es : List Json)
    (h : handle_list_files fs params = .ok (.arr es)) :
    ∃ ds fls, es = ds ++ fls ∧
      (∀ e ∈ ds, typeKey e = some "directory") ∧
      (∀ e ∈ fls, typeKey e = some "file") ∧
      sortedByName ds ∧ sortedByName fls := by
  unfold handle_list_files at h
  split at h
  · exact absurd h (by simp)
  · split at h
    · exact absurd h (by simp)
    · split at h
      · exact absurd h (by simp)
      · split at h
        · exact absurd h (by simp)
        · next entries heq =>
          split at h
          · exact absurd h (by simp)
          · next ds0 fls0 hcol =>
            simp only [Except.ok.injEq, Json.arr.injEq] at h
            subst h
            obtain ⟨ihd, ihf⟩ := collectEntries_types entries ds0 fls0 hcol
            refine ⟨sortByName ds0, sortByName fls0, rfl, ?_, ?_, ?_, ?_⟩
            · intro e he
              exact ihd e ((List.mem_insertionSort _).mp he)
            · intro e he
              exact ihf e ((List.mem_insertionSort _).mp he)
            · exact List.sorted_insertionSort _ ds0
            · exact List.sorted_insertionSort _ fls0

/-- The read_dir outcome of the spec example directory: entries b.txt
(file of 3 bytes), a (directory), c (directory), in on-disk order. -/
def exampleDirEntries : List (Except String RawEntry) :=
  [.ok { name := "b.txt", isDir := false, metadata := .ok 3 },
   .ok { name := "a", isDir := true, metadata := .ok 0 },
   .ok { name := "c", isDir := true, metadata := .ok 0 }]

/-- A state holding the spec example directory at path mydir. -/
def exampleFs : FsState := [("mydir", Node.dir exampleDirEntries)]

/-- The listing the example directory produces. -/
def exampleListing : List Json :=
  [dirEntryJson "a", dirEntryJson "c", fileEntryJson "b.txt" 3]

/-- Witness for C2: the example directory lists in the name order
a, c, b.txt and satisfies the ordering property. -/
theorem listFiles_result_ordered_witness :
    handle_list_files exampleFs (.obj [("path", .str "mydir")]) =
      .ok (.arr exampleListing) ∧
    exampleListing.map nameKey = ["a", "c", "b.txt"] ∧
    (∃ ds fls, exampleListing = ds ++ fls ∧
      (∀ e ∈ ds, typeKey e = some "directory") ∧
      (∀ e ∈ fls, typeKey e = some "file") ∧
      sortedByName ds ∧ sortedByName fls) :=
  ⟨by with_unfolding_all rfl, rfl,
   listFiles_result_ordered exampleFs (.obj [("path", .str "mydir")]) exampleListing
     (by with_unfolding_all rfl)⟩

theorem collectEntries_error_of_failing_metadata
    (items : List (Except String RawEntry)) (en : RawEntry) (msg : String)
    (hmem : Except.ok en ∈ items) (hdir : en.isDir = false)
    (hmeta : en.metadata = .error msg) :
    ∃ m, collectEntries items = .error m := by
  induction items with
  | nil => cases hmem
  | cons a rest ih =>
    cases a with
    | error e => exact ⟨e, rfl⟩
    | ok b =>
      rcases List.mem_cons.mp hmem with hb | hb
      · obtain rfl : b = en := by injection hb.symm
        exact ⟨msg, by simp [collectEntries, hdir, hmeta]⟩
      · obtain ⟨m, hm⟩ := ih hb
        by_cases hbd : b.isDir
        · exact ⟨m, by simp [collectEntries, hbd, hm]⟩
        · cases hmd : b.metadata with
          | error e => exact ⟨e, by simp [collectEntries, hbd, hmd]⟩
          | ok size => exact ⟨m, by simp [collectEntries, hbd, hmd, hm]⟩

/-- C7: a listFiles call on an existing directory where the metadata
read of some non-directory entry fails answers with an IoError response
(code -32002) and returns no partial listing as a result. -/
theorem listFiles_metadata_failure_aborts (fs : FsState) (p : String)
    (id : Option Json) (entries : List (Except String RawEntry))
    (en : RawEntry) (msg : String)
    (hfs : lookupPath fs p = some (.dir entries))
    (hmem : Except.ok en ∈ entries) (hdir : en.isDir = false)
    (hmeta : en.metadata = .error msg) :
    ((process_request fs (listFilesRequest p id)).2).result = none ∧
    ∃ m, ((process_request fs (listFilesRequest p id)).2).error =
      some { code := -32002, message := m } := by
  obtain ⟨m, hm⟩ :=
    collectEntries_error_of_failing_metadata entries en msg hmem hdir hmeta
  refine ⟨?_, m, ?_⟩ <;>
    simp [process_request, listFilesRequest, handle_list_files,
      parseListFilesParams_path, pathExists, isDirPath, readDir, hfs, hm,
      wrapResult, HandlerError.to_jsonrpc_error, create_error_response,
      IO_ERROR_CODE]

/-- A read_dir entry whose metadata read fails. -/
def badMetaEntry : RawEntry :=
  { name := "x.bin", isDir := false, metadata := .error "permission denied" }

/-- A state holding a directory whose single entry has failing metadata. -/
def badMetaFs : FsState := [("d", Node.dir [.ok badMetaEntry])]

/-- Witness for C7 at the concrete failing directory. -/
theorem listFiles_metadata_failure_aborts_witness :
    ((process_request badMetaFs (listFilesRequest "d" none)).2).result = none ∧
    ∃ m, ((process_request badMetaFs (listFilesRequest "d" none)).2).error =
      some { code := -32002, message := m } :=
  listFiles_metadata_failure_aborts badMetaFs "d" none [.ok badMetaEntry]
    badMetaEntry "permission denied" rfl (List.mem_singleton.mpr rfl) rfl rfl

theorem wrapResult_exactly_one (r : Except HandlerError Json) (id : Json) :
    exactlyOneOfResultError (wrapResult r id) := by
  cases r with
  | ok v => left; simp [wrapResult]
  | error e =>
    right
    cases e <;>
      simp [wrapResult, HandlerError.to_jsonrpc_error, create_error_response]

theorem process_request_exactly_one (fs : FsState) (request : JsonRpcRequest) :
    exactlyOneOfResultError ((process_request fs request).2) := by
  simp only [process_request]
  split
  · exact wrapResult_exactly_one _ _
  · cases hw : handle_write_file fs request.params with
    | mk fs1 r => exact wrapResult_exactly_one r _
  · exact wrapResult_exactly_one _ _
  · right; simp [create_error_response]

theorem processText_exactly_one (fs : FsState) (pl : Payload) :
    exactlyOneOfResultError ((processText fs pl).2) := by
  simp only [processText]
  split
  · exact process_request_exactly_one _ _
  · right; simp [create_error_response]

/-- C6: every response the connection loop sends back - handler success,
every handler failure kind, method-not-found and parse-error alike -
carries exactly one of the result and error fields. -/
theorem responses_have_exactly_one_of_result_error (fs : FsState)
    (items : List RecvItem) (r : JsonRpcResponse)
    (h : r ∈ runSocket fs items) : exactlyOneOfResultError r := by
  induction items generalizing fs with
  | nil => simp [runSocket] at h
  | cons item rest ih =>
    cases item with
    | err => simp [runSocket, stepConn] at h
    | ok m sendOk =>
      cases m with
      | text pl =>
        cases hp : processText fs pl with
        | mk fs1 resp =>
          cases sendOk with
          | true =>
            simp only [runSocket, stepConn, hp] at h
            rcases List.mem_cons.mp h with h | h
            · have hone := processText_exactly_one fs pl
              rw [hp] at hone
              exact h ▸ hone
            · exact ih fs1 h
          | false => simp [runSocket, stepConn, hp] at h
      | binary =>
        simp only [runSocket, stepConn] at h
        exact ih fs h
      | ping =>
        simp only [runSocket, stepConn] at h
        exact ih fs h
      | pong =>
        simp only [runSocket, stepConn] at h
        exact ih fs h
      | close =>
        simp only [runSocket, stepConn] at h
        exact ih fs h

/-- Witness for C6: the parse-error response sent for a malformed frame. -/
theorem responses_have_exactly_one_of_result_error_witness :
    exactlyOneOfResultError
      (create_error_response PARSE_ERROR_CODE "Parse error" Json.null) :=
  responses_have_exactly_one_of_result_error []
    [.ok (.text (.malformed "oops")) true]
    (create_error_response PARSE_ERROR_CODE "Parse error" Json.null)
    (List.mem_singleton.mpr rfl)

/-- C8: a text frame whose content does not decode into a request gets
the parse-error response with code -32700 and null id; the loop stays
Open (when the send succeeds), the file-system state is untouched, and
the remaining frames are processed exactly as they would have been. -/
theorem decode_failure_parse_error_and_loop_continues (fs : FsState)
    (pl : Payload) (e : String) (rest : List RecvItem)
    (h : decodeText pl = .error e) :
    (processText fs pl).2 =
      create_error_response (-32700) "Parse error" Json.null ∧
    ((processText fs pl).2).error =
      some { code := -32700, message := "Parse error" } ∧
    ((processText fs pl).2).id = Json.null ∧
    stepConn fs (.ok (.text pl) true) = (.Open, fs, some ((processText fs pl).2)) ∧
    runSocket fs (.ok (.text pl) true :: rest) =
      (processText fs pl).2 :: runSocket fs rest := by
  have hp : processText fs pl =
      (fs, create_error_response (-32700) "Parse error" Json.null) := by
    simp [processText, h, PARSE_ERROR_CODE]
  refine ⟨by rw [hp], by rw [hp]; rfl, by rw [hp]; rfl, ?_, ?_⟩
  · simp [stepConn, hp]
  · simp [runSocket, stepConn, hp]

/-- Witness for C8: a malformed frame followed by a valid readFile
frame; the parse-error response is sent and the next frame is answered. -/
theorem decode_failure_parse_error_and_loop_continues_witness :
    (processText oneFileFs (.malformed "not json")).2 =
      create_error_response (-32700) "Parse error" Json.null ∧
    ((processText oneFileFs (.malformed "not json")).2).error =
      some { code := -32700, message := "Parse error" } ∧
    ((processText oneFileFs (.malformed "not json")).2).id = Json.null ∧
    stepConn oneFileFs (.ok (.text (.malformed "not json")) true) =
      (.Open, oneFileFs, some ((processText oneFileFs (.malformed "not json")).2)) ∧
    runSocket oneFileFs
        (.ok (.text (.malformed "not json")) true ::
          [.ok (.text (.json (.obj [("jsonrpc", .str "2.0"), ("method", .str "readFile"), ("params", .obj [("path", .str "f")])]))) true]) =
      (processText oneFileFs (.malformed "not json")).2 ::
        runSocket oneFileFs
          [.ok (.text (.json (.obj [("jsonrpc", .str "2.0"), ("method", .str "readFile"), ("params", .obj [("path", .str "f")])]))) true] :=
  decode_failure_parse_error_and_loop_continues oneFileFs (.malformed "not json")
    "expected value"
    [.ok (.text (.json (.obj [("jsonrpc", .str "2.0"), ("method", .str "readFile"), ("params", .obj [("path", .str "f")])]))) true]
    rfl

/-- C9: a non-text frame on an open connection produces no response and
leaves the loop open with its state unchanged; the rest of the stream
is processed as if the frame had not been received. -/
theorem nontext_frame_ignored (fs : FsState) (m : Message) (sendOk : Bool)
    (rest : List RecvItem) (h : ∀ pl, m ≠ .text pl) :
    stepConn fs (.ok m sendOk) = (.Open, fs, none) ∧
    runSocket fs (.ok m sendOk :: rest) = runSocket fs rest := by
  cases m with
  | text pl => exact absurd rfl (h pl)
  | binary => exact ⟨rfl, rfl⟩
  | ping => exact ⟨rfl, rfl⟩
  | pong => exact ⟨rfl, rfl⟩
  | close => exact ⟨rfl, rfl⟩

/-- Witness for C9 at a concrete binary frame. -/
theorem nontext_frame_ignored_witness :
    stepConn oneFileFs (.ok .binary true) = (.Open, oneFileFs, none) ∧
    runSocket oneFileFs (.ok .binary true :: [.err]) = runSocket oneFileFs [.err] :=
  nontext_frame_ignored oneFileFs .binary true [.err]
    (fun _ hp => Message.noConfusion hp)

theorem decodeRequest_error_of_missing_field (fields : List (String × Json))
    (h : getField fields "params" = none ∨ getField fields "jsonrpc" = none) :
    ∃ e, decodeRequest (.obj fields) = .error e := by
  rcases h with h | h
  · cases hj : getField fields "jsonrpc" with
    | none => exact ⟨"missing field jsonrpc", by simp [decodeRequest, hj]⟩
    | some jv =>
      cases hjs : asString jv with
      | none =>
        exact ⟨"invalid type for field jsonrpc", by simp [decodeRequest, hj, hjs]⟩
      | some ver =>
        cases hm : getField fields "method" with
        | none =>
          exact ⟨"missing field method", by simp [decodeRequest, hj, hjs, hm]⟩
        | some mv =>
          cases hms : asString mv with
          | none =>
            exact ⟨"invalid type for field method",
              by simp [decodeRequest, hj, hjs, hm, hms]⟩
          | some m =>
            exact ⟨"missing field params",
              by simp [decodeRequest, hj, hjs, hm, hms, h]⟩
  · exact ⟨"missing field jsonrpc", by simp [decodeRequest, h]⟩

/-- C10: a well-formed JSON frame whose object lacks the params field or
the jsonrpc field fails request decoding, so the loop answers with the
parse-error response (code -32700, null id), not with invalid-params
-32602. -/
theorem missing_mandatory_field_is_parse_error (fs : FsState)
    (fields : List (String × Json))
    (h : getField fields "params" = none ∨ getField fields "jsonrpc" = none) :
    (processText fs (.json (.obj fields))).2 =
      create_error_response (-32700) "Parse error" Json.null ∧
    ((processText fs (.json (.obj fields))).2).error =
      some { code := -32700, message := "Parse error" } ∧
    ((processText fs (.json (.obj fields))).2).id = Json.null ∧
    (-32700 : Int) ≠ INVALID_PARAMS_CODE := by
  obtain ⟨e, he⟩ := decodeRequest_error_of_missing_field fields h
  have hp : (processText fs (.json (.obj fields))).2 =
      create_error_response (-32700) "Parse error" Json.null := by
    simp [processText, decodeText, he, PARSE_ERROR_CODE]
  exact ⟨hp, by rw [hp]; rfl, by rw [hp]; rfl, by decide⟩

/-- A well-formed JSON object with jsonrpc and method but no params. -/
def noParamsObject : List (String × Json) :=
  [("jsonrpc", .str "2.0"), ("method", .str "readFile")]

/-- Witness for C10 at a concrete object lacking params. -/
theorem missing_mandatory_field_is_parse_error_witness :
    (processText [] (.json (.obj noParamsObject))).2 =
      create_error_response (-32700) "Parse error" Json.null ∧
    ((processText [] (.json (.obj noParamsObject))).2).error =
      some { code := -32700, message := "Parse error" } ∧
    ((processText [] (.json (.obj noParamsObject))).2).id = Json.null ∧
    (-32700 : Int) ≠ INVALID_PARAMS_CODE :=
  missing_mandatory_field_is_parse_error [] noParamsObject (Or.inl rfl)
